import Mathlib

/-!
Shallow embedding of the AlconCapstone compliance pipeline.

Source files embedded here:
* complianceGrader.py — structure_compliance_grade (the grade normalizer),
  build_compliance_prompt's format_records (policy-id assignment);
* controller.py — ComplianceController: add_message, run_compliance_check,
  chat_bot_message, and the session state;
* main.py — the CLI entry point's product-selection step.

Modelling conventions:
* An evaluation item from the LLM JSON is modelled with a String policy_id,
  a String (supplied) type field, and an integer grade, matching the schema
  "grade": <0-100> the prompts demand; grades outside [0,100] are still
  representable because the Python performs no range check on them.
* pandas DataFrame operations are modelled on lists: boolean-mask filtering
  is List.filter (order preserving, as in pandas), sort_values by grade is
  an ascending sort on the grade column, Series.mean over integers is exact
  rational division, int(...) on an integer Series maximum is the maximum,
  and (scores < t).mean() is countP divided by length.
* The one failure mode of structure_compliance_grade reachable for inputs
  of this shape is the KeyError raised when response["evaluations"] is
  missing, or when it is the empty list (pd.DataFrame([]) has no columns,
  so df["policy_id"] raises). This is modelled with Except.
* The external LLM call is modelled as an explicit argument: an
  Except String value for the grading call (error = network/parse failure
  raised inside get_response_from_LLM) and a plain String reply for chat.
-/

/-- One evaluation object of the raw LLM response
(keys: policy_id, policy, type, grade, reason). -/
structure InItem where
  policy_id : String
  policy : String
  type : String
  grade : Int
  reason : String
  deriving Repr, DecidableEq

/-- One record of the normalized output; its type field has been
overwritten by structure_compliance_grade. -/
structure OutItem where
  policy_id : String
  policy : String
  type : String
  grade : Int
  reason : String
  deriving Repr, DecidableEq

/-- The scores block of the normalized structure:
approved is an int, fda and ftc are floats (modelled exactly as rationals). -/
structure Scores where
  approved : Int
  fda : Rat
  ftc : Rat
  deriving Repr, DecidableEq

/-- The normalized structure returned by structure_compliance_grade. -/
structure ComplianceResult where
  scores : Scores
  filtered_evaluations : List OutItem
  approved_matches : List OutItem
  approved_match_summary : String
  overall_summary : String
  deriving Repr, DecidableEq

/-- The raw LLM response dict: the evaluations key may be absent
(Option.none) and overall_summary may be absent (response.get default ""). -/
structure RawResponse where
  evaluations : Option (List InItem)
  overall_summary : Option String
  deriving Repr, DecidableEq

/-- df["policy_id"].str.split(":").str[0] — the group of an item: the text
of its policy_id before the first colon (the whole string when it has no
colon, and "" when it starts with one, exactly as Python's split). -/
def derivedType (s : String) : String :=
  ⟨s.toList.takeWhile fun c => c != ':'⟩

/-- Build the row of the working DataFrame for one raw item: every column is
copied, except that the type column is overwritten with the derived group
(complianceGrader.py line 294). -/
def toOut (i : InItem) : OutItem :=
  { policy_id := i.policy_id
    policy := i.policy
    type := derivedType i.policy_id
    grade := i.grade
    reason := i.reason }

/-- The ignoreScore constant of structure_compliance_grade. -/
def ignoreScore : Int := 90

/-- The passing_mask of complianceGrader.py lines 297-303:
type != "approved" and not ((type == "fda" or type == "ftc") and
grade >= ignoreScore). -/
def passingMask (o : OutItem) : Bool :=
  (o.type != "approved") &&
    !(((o.type == "fda") || (o.type == "ftc")) && decide (o.grade ≥ ignoreScore))

/-- sort_values(by="grade", ascending=True): an ascending sort on the grade
column. pandas' default sort is not stable, so any correct ascending sort
models it; insertion sort is used because it is structurally recursive. -/
def sortByGrade (l : List OutItem) : List OutItem :=
  l.insertionSort fun a b => a.grade ≤ b.grade

instance : IsTotal OutItem fun a b => a.grade ≤ b.grade :=
  ⟨fun a b => le_total a.grade b.grade⟩

instance : IsTrans OutItem fun a b => a.grade ≤ b.grade :=
  ⟨fun _ _ _ => le_trans⟩

/-- compute_category_score of complianceGrader.py lines 328-334: select the
grades of the rows whose (derived) type equals the category; 0 when empty;
otherwise clamp(mean - 100 * fraction-below-70, 0, 100). -/
def compute_category_score (df : List OutItem) (category : String) : Rat :=
  let scores := (df.filter (fun o => o.type == category)).map OutItem.grade
  if scores.isEmpty then 0
  else
    let n : Rat := scores.length
    let base : Rat := ((scores.map fun g => (g : Rat)).sum) / n
    let penalty : Rat := ((scores.countP fun g => decide (g < 70)) : Rat) / n * 100
    max 0 (min 100 (base - penalty))

/-- The body of structure_compliance_grade once the DataFrame df (with the
type column already overwritten) exists: filtering, sorting, approved score,
approved matches, category scores, and the assembled return dict. -/
def normalize_df (df : List OutItem) (overall_summary : String) : ComplianceResult :=
  let df_filtered := sortByGrade (df.filter passingMask)
  let approved_df := df.filter (fun o => o.type == "approved")
  let approved_score : Int :=
    match (approved_df.map OutItem.grade).max? with
    | some m => m
    | none => 0
  let approved_matches := approved_df.filter (fun o => decide (o.grade ≥ 50))
  let approved_match_summary :=
    if approved_matches.isEmpty then "No matching approved claims."
    else "Matched approved claims found."
  { scores :=
      { approved := approved_score
        fda := compute_category_score df "fda"
        ftc := compute_category_score df "ftc" }
    filtered_evaluations := df_filtered
    approved_matches := approved_matches
    approved_match_summary := approved_match_summary
    overall_summary := overall_summary }

/-- structure_compliance_grade (complianceGrader.py lines 251-350) on the
well-shaped part of its domain: build the DataFrame from the evaluations
list, overwrite type from policy_id, and normalize. -/
def structure_compliance_grade_core (evaluations : List InItem)
    (overall_summary : String) : ComplianceResult :=
  normalize_df (evaluations.map toOut) overall_summary

/-- structure_compliance_grade including its reachable failure modes for
inputs of this shape: response["evaluations"] missing raises KeyError, and
an empty evaluations list makes df["policy_id"] raise KeyError
(a DataFrame built from an empty list has no columns). overall_summary
falls back to "" via response.get("overall_summary", ""). -/
def structure_compliance_grade (response : RawResponse) :
    Except String ComplianceResult :=
  match response.evaluations with
  | none => Except.error "KeyError: evaluations"
  | some evs =>
    if evs.isEmpty then Except.error "KeyError: policy_id"
    else Except.ok (structure_compliance_grade_core evs (response.overall_summary.getD ""))

/-- One record emitted by format_records inside build_compliance_prompt
(complianceGrader.py lines 70-78) and buildPrompt (promptManager.py
lines 34-42): a policy id of the form "<group>:<index>" and the policy
text of the row. -/
structure PolicyRecord where
  policy_id : String
  text : String
  deriving Repr, DecidableEq

/-- format_records of build_compliance_prompt / buildPrompt. The table is
modelled by its first (text) column after reset_index(drop=True): one
Option String per row, none standing for a NaN cell. The policy_id column
was assigned from the index BEFORE the notna filtering of iterrows, so a
retained row keeps its original position as its id. -/
def format_records (df_type : String) (cells : List (Option String)) :
    List PolicyRecord :=
  cells.enum.filterMap fun p =>
    p.2.map fun t => { policy_id := df_type ++ ":" ++ toString p.1, text := t }

/-- One entry of the controller's chat history. -/
structure ChatMsg where
  role : String
  content : String
  deriving Repr, DecidableEq

/-- self.state of ComplianceController (controller.py lines 48-52). -/
structure SessionState where
  product : Option String
  last_compliance : Option ComplianceResult
  previous_compliance : Option ComplianceResult
  deriving Repr, DecidableEq

/-- The mutable fields of a ComplianceController that the session logic
touches: the long-term state dict and the short-term chat history.
The OpenAI client and the loaded policy DataFrames are external resources
(the latter only feed the prompt text, which the modelled LLM argument
absorbs), and strictness is a config integer that likewise only enters the
prompt text. -/
structure ComplianceController where
  state : SessionState
  chat_history : List ChatMsg
  deriving Repr, DecidableEq

/-- Python truthiness of self.state["product"]: None and "" are falsy. -/
def pyFalsyProduct : Option String → Bool
  | none => true
  | some s => s == ""

/-- add_message (controller.py lines 60-83): append the message, then
pop the front entry when the length exceeds 10. -/
def add_message (c : ComplianceController) (role content : String) :
    ComplianceController :=
  let h := c.chat_history ++ [{ role := role, content := content }]
  { c with chat_history := if h.length > 10 then h.drop 1 else h }

/-- load_product_policies (controller.py lines 88-111): set the product,
load the policy tables (external file I/O, elided — it only populates
self.policies), and log an assistant message. -/
def load_product_policies (c : ComplianceController) (product : String) :
    ComplianceController :=
  let c1 := { c with state := { c.state with product := some product } }
  add_message c1 "assistant" ("Product set to: " ++ product)

/-- run_compliance_check (controller.py lines 116-162). The llm argument is
the outcome of build_compliance_prompt + get_response_from_LLM: an error
models an exception raised by the API call or the JSON parse. The state
updates and the history message happen only after structure_compliance_grade
returns, exactly as in the source; every failure path returns the
controller unchanged together with the raised error. -/
def run_compliance_check (c : ComplianceController)
    (llm : Except String RawResponse) :
    ComplianceController × Except String ComplianceResult :=
  if pyFalsyProduct c.state.product then
    (c, Except.error "No product selected. Call set_product(product) first.")
  else
    match llm with
    | Except.error e => (c, Except.error e)
    | Except.ok raw =>
      match structure_compliance_grade raw with
      | Except.error e => (c, Except.error e)
      | Except.ok compliance =>
        let st := { c.state with
          previous_compliance := c.state.last_compliance
          last_compliance := some compliance }
        let c1 := add_message { c with state := st } "assistant"
          "Compliance check updated."
        (c1, Except.ok compliance)

/-- chat_bot_message (controller.py lines 167-202): append the user message,
call get_chatbot_response (modelled by the llm_reply argument), append the
reply, return it. There is no product-selection check on this path. -/
def chat_bot_message (c : ComplianceController) (user_message : String)
    (llm_reply : String) : ComplianceController × String :=
  let c1 := add_message c "user" user_message
  let c2 := add_message c1 "assistant" llm_reply
  (c2, llm_reply)

/-- A raised Python exception, by class name and detail. -/
structure PyError where
  kind : String
  detail : String
  deriving Repr, DecidableEq

/-- The attributes a ComplianceController instance actually has: the five
fields set in __init__ (controller.py lines 40-55) and the four methods of
the class. There is no set_product. -/
def controllerAttributes : List String :=
  ["client", "strictness", "chat_history", "state", "policies",
   "add_message", "load_product_policies", "run_compliance_check",
   "chat_bot_message"]

/-- Python attribute lookup on a ComplianceController: an unknown name
raises AttributeError. -/
def getattr_controller (name : String) : Except PyError Unit :=
  if controllerAttributes.contains name then Except.ok ()
  else Except.error { kind := "AttributeError", detail := name }

/-- The product menu of main (main.py lines 13-16). -/
def product_map : List (String × String) :=
  [("1", "ClareonPanOptix"), ("2", "TOTAL30")]

/-- main (main.py lines 29-52) from the moment a valid product choice has
been entered: resolve the product, execute ctrl.set_product(product) —
an attribute lookup on the controller, which must succeed before any call
can happen — and only then prompt for text and run the compliance check. -/
def main_after_selection (choice : String) (c : ComplianceController)
    (llm : Except String RawResponse) :
    Except PyError (ComplianceController × Except String ComplianceResult) :=
  match product_map.lookup choice with
  | none => Except.error { kind := "KeyError", detail := choice }
  | some _product =>
    match getattr_controller "set_product" with
    | Except.error e => Except.error e
    | Except.ok _ => Except.ok (run_compliance_check c llm)

/-! ### Helper lemmas -/

lemma toOut_type (i : InItem) : (toOut i).type = derivedType i.policy_id := rfl

lemma type_of_mem_map {evs : List InItem} {o : OutItem} (h : o ∈ evs.map toOut) :
    o.type = derivedType o.policy_id := by
  obtain ⟨i, -, rfl⟩ := List.mem_map.mp h
  rfl

/-- An accepted call of structure_compliance_grade whose evaluations key is
present computes the core normalization on a nonempty list. -/
lemma accepted_eq {raw : RawResponse} {res : ComplianceResult} {evs : List InItem}
    (hevs : raw.evaluations = some evs)
    (h : structure_compliance_grade raw = Except.ok res) :
    res = structure_compliance_grade_core evs (raw.overall_summary.getD "")
      ∧ evs ≠ [] := by
  by_cases he : evs.isEmpty = true
  · simp [structure_compliance_grade, hevs, he] at h
  · simp [structure_compliance_grade, hevs, he] at h
    exact ⟨h.symm, by simpa using he⟩

/-- The boolean passing_mask, read back as a proposition about the
(derived) type column and the grade. -/
lemma passingMask_iff (o : OutItem) :
    passingMask o = true ↔
      (o.type ≠ "approved" ∧
        ¬((o.type = "fda" ∨ o.type = "ftc") ∧ (90 : Int) ≤ o.grade)) := by
  simp [passingMask, ignoreScore]
  tauto

lemma core_filtered (evs : List InItem) (s : String) :
    (structure_compliance_grade_core evs s).filtered_evaluations
      = sortByGrade ((evs.map toOut).filter passingMask) := rfl

/-! ### C1 -/

/-- C1: for every raw response accepted by structure_compliance_grade, an
evaluation item appears in filtered_evaluations iff its group (derived from
the policy_id text before the first colon) is not "approved" and it is not
the case that the group is fda or ftc with grade >= 90; and
filtered_evaluations is sorted non-decreasing by grade. -/
theorem C1_filter_and_order (raw : RawResponse) (evs : List InItem)
    (res : ComplianceResult) (hevs : raw.evaluations = some evs)
    (h : structure_compliance_grade raw = Except.ok res) :
    (∀ o : OutItem, o ∈ res.filtered_evaluations ↔
      (o ∈ evs.map toOut ∧ derivedType o.policy_id ≠ "approved" ∧
        ¬((derivedType o.policy_id = "fda" ∨ derivedType o.policy_id = "ftc") ∧
          (90 : Int) ≤ o.grade))) ∧
    List.Sorted (fun a b : OutItem => a.grade ≤ b.grade) res.filtered_evaluations := by
  obtain ⟨hres, -⟩ := accepted_eq hevs h
  subst hres
  constructor
  · intro o
    rw [core_filtered]
    unfold sortByGrade
    rw [List.mem_insertionSort, List.mem_filter]
    constructor
    · rintro ⟨hm, hp⟩
      have ht := type_of_mem_map hm
      rw [passingMask_iff, ht] at hp
      exact ⟨hm, hp⟩
    · rintro ⟨hm, hp⟩
      have ht := type_of_mem_map hm
      refine ⟨hm, ?_⟩
      rw [passingMask_iff, ht]
      exact hp
  · rw [core_filtered]
    exact List.sorted_insertionSort _ _

/-- A raw evaluation item written positionally:
policy_id, policy text, supplied type, grade, reason. -/
def mkItem (pid policy ty : String) (g : Int) (reason : String) : InItem :=
  { policy_id := pid, policy := policy, type := ty, grade := g, reason := reason }

def c1evs : List InItem :=
  [mkItem "fda:0" "p0" "fda" 95 "r0",
   mkItem "ftc:0" "p1" "ftc" 40 "r1",
   mkItem "approved:0" "p2" "approved" 60 "r2"]

def c1raw : RawResponse := { evaluations := some c1evs, overall_summary := some "s" }

def c1res : ComplianceResult := structure_compliance_grade_core c1evs "s"

/-- Witness for C1 at a concrete accepted response, instantiating the
membership equivalence at the retained ftc item. -/
theorem C1_witness :
    c1raw.evaluations = some c1evs ∧
    structure_compliance_grade c1raw = Except.ok c1res ∧
    (toOut (mkItem "ftc:0" "p1" "ftc" 40 "r1") ∈ c1res.filtered_evaluations ↔
      (toOut (mkItem "ftc:0" "p1" "ftc" 40 "r1") ∈ c1evs.map toOut ∧
        derivedType "ftc:0" ≠ "approved" ∧
        ¬((derivedType "ftc:0" = "fda" ∨ derivedType "ftc:0" = "ftc") ∧
          (90 : Int) ≤ (toOut (mkItem "ftc:0" "p1" "ftc" 40 "r1")).grade))) ∧
    List.Sorted (fun a b : OutItem => a.grade ≤ b.grade) c1res.filtered_evaluations := by
  have h := C1_filter_and_order c1raw c1evs c1res rfl rfl
  exact ⟨rfl, rfl, h.1 _, h.2⟩

/-! ### C2 -/

/-- The category score in the spec's words, as a function of the grades of
the category's items: 0 when there are none, otherwise
clamp(mean - 100 * (fraction of grades below 70), 0, 100), unrounded. -/
def spec_category_score (grades : List Int) : Rat :=
  if grades = [] then 0
  else
    let mean : Rat := ((grades.map fun g => (g : Rat)).sum) / grades.length
    let fraction : Rat := ((grades.countP fun g => decide (g < 70)) : Rat) / grades.length
    max 0 (min 100 (mean - 100 * fraction))

/-- Selecting the grade column of the rows of a given category commutes with
building the DataFrame: it is the grades of the raw items whose derived
group is that category. -/
lemma category_grades (evs : List InItem) (cat : String) :
    ((evs.map toOut).filter fun o => o.type == cat).map OutItem.grade
      = (evs.filter fun i => derivedType i.policy_id == cat).map InItem.grade := by
  rw [List.filter_map, List.map_map]
  rfl

/-- The code's category score agrees with the spec's formula on the grade
column it selects. -/
lemma compute_eq_spec (df : List OutItem) (cat : String) :
    compute_category_score df cat
      = spec_category_score ((df.filter fun o => o.type == cat).map OutItem.grade) := by
  unfold compute_category_score spec_category_score
  by_cases h : ((df.filter fun o => o.type == cat).map OutItem.grade) = []
  · simp [h]
  · have hne : ¬(((df.filter fun o => o.type == cat).map OutItem.grade).isEmpty = true) := by
      simpa [List.isEmpty_iff] using h
    rw [if_neg hne, if_neg h]
    simp only [mul_comm]

def c2evs : List InItem :=
  [mkItem "fda:0" "p0" "fda" 50 "r0", mkItem "fda:1" "p1" "fda" 90 "r1"]

/-- C2: for every accepted raw response, the fda and ftc scores equal the
spec's formula — clamp(mean - 100 * fraction-below-70, 0, 100), or 0 when
the category has no items — computed over ALL items whose derived group is
the category (including those with grade >= 90), exactly (no rounding); and
in particular two fda items graded 50 and 90 give an fda score of 20. -/
theorem C2_category_scores (raw : RawResponse) (evs : List InItem)
    (res : ComplianceResult) (hevs : raw.evaluations = some evs)
    (h : structure_compliance_grade raw = Except.ok res) :
    res.scores.fda
        = spec_category_score
            ((evs.filter fun i => derivedType i.policy_id == "fda").map InItem.grade)
      ∧ res.scores.ftc
        = spec_category_score
            ((evs.filter fun i => derivedType i.policy_id == "ftc").map InItem.grade)
      ∧ (structure_compliance_grade_core c2evs "").scores.fda = 20 := by
  obtain ⟨hres, -⟩ := accepted_eq hevs h
  subst hres
  refine ⟨?_, ?_, ?_⟩
  · show compute_category_score (evs.map toOut) "fda" = _
    rw [compute_eq_spec, category_grades]
  · show compute_category_score (evs.map toOut) "ftc" = _
    rw [compute_eq_spec, category_grades]
  · have h1 : (structure_compliance_grade_core c2evs "").scores.fda
        = compute_category_score (c2evs.map toOut) "fda" := rfl
    have h2 : (((c2evs.map toOut).filter fun o => o.type == "fda").map OutItem.grade)
        = [50, 90] := by decide
    rw [h1, compute_eq_spec, h2]
    norm_num [spec_category_score, List.countP, List.countP.go]
    decide

/-- Witness for C2 at the concrete two-item fda response of the claim's
example scenario. -/
theorem C2_witness :
    ({ evaluations := some c2evs, overall_summary := some "s" } : RawResponse).evaluations
        = some c2evs ∧
    structure_compliance_grade { evaluations := some c2evs, overall_summary := some "s" }
        = Except.ok (structure_compliance_grade_core c2evs "s") ∧
    (structure_compliance_grade_core c2evs "s").scores.fda
        = spec_category_score
            ((c2evs.filter fun i => derivedType i.policy_id == "fda").map InItem.grade) ∧
    (structure_compliance_grade_core c2evs "s").scores.ftc
        = spec_category_score
            ((c2evs.filter fun i => derivedType i.policy_id == "ftc").map InItem.grade) ∧
    (structure_compliance_grade_core c2evs "").scores.fda = 20 := by
  have h := C2_category_scores { evaluations := some c2evs, overall_summary := some "s" }
    c2evs (structure_compliance_grade_core c2evs "s") rfl rfl
  exact ⟨rfl, rfl, h.1, h.2.1, h.2.2⟩

/-! ### C3 -/

/-- The approved score is the maximum of the grades of the items whose
derived group is "approved", with 0 as the default for none. -/
lemma core_approved (evs : List InItem) (s : String) :
    (structure_compliance_grade_core evs s).scores.approved
      = ((evs.filter fun i => derivedType i.policy_id == "approved").map
          InItem.grade).max?.getD 0 := by
  have h : (structure_compliance_grade_core evs s).scores.approved
      = (((evs.map toOut).filter fun o => o.type == "approved").map
          OutItem.grade).max?.getD 0 := by
    cases hm : (((evs.map toOut).filter fun o => o.type == "approved").map
        OutItem.grade).max? <;>
      simp [structure_compliance_grade_core, normalize_df, hm]
  rw [h, category_grades]

def c3evs : List InItem := [mkItem "approved:0" "p" "approved" 0 "r"]

def c3raw : RawResponse := { evaluations := some c3evs, overall_summary := some "s" }

def c3res : ComplianceResult := structure_compliance_grade_core c3evs "s"

/-- C3 counterexample: the accepted response with a single approved item of
grade 0 is normalized to scores.approved = 0 although its number of
approved items is not zero — refuting the claim's "equals 0 exactly when
there are zero approved items". -/
theorem C3_counterexample :
    structure_compliance_grade c3raw = Except.ok c3res ∧
    ¬ (c3res.scores.approved = 0 ↔
        (c3evs.filter fun i => derivedType i.policy_id == "approved") = []) :=
  ⟨rfl, by decide⟩

/-- C3 (amended): for every accepted raw response whose grades all lie in
[0,100], scores.approved equals the maximum grade over the items whose
derived group is "approved" (0 if there are none), is an integer in
[0,100], and equals 0 if there are zero approved items (it can also be 0
with approved items present, when their maximal grade is 0). -/
theorem C3_amended_approved_score (raw : RawResponse) (evs : List InItem)
    (res : ComplianceResult) (hevs : raw.evaluations = some evs)
    (h : structure_compliance_grade raw = Except.ok res)
    (hrange : ∀ i ∈ evs, 0 ≤ i.grade ∧ i.grade ≤ 100) :
    res.scores.approved
        = ((evs.filter fun i => derivedType i.policy_id == "approved").map
            InItem.grade).max?.getD 0
      ∧ 0 ≤ res.scores.approved ∧ res.scores.approved ≤ 100
      ∧ ((evs.filter fun i => derivedType i.policy_id == "approved") = [] →
          res.scores.approved = 0) := by
  obtain ⟨hres, -⟩ := accepted_eq hevs h
  subst hres
  rw [core_approved]
  have hbounds : ∀ m : Int,
      ((evs.filter fun i => derivedType i.policy_id == "approved").map
        InItem.grade).max? = some m → 0 ≤ m ∧ m ≤ 100 := by
    intro m hm
    have hmem := List.max?_mem max_choice hm
    obtain ⟨i, hi, rfl⟩ := List.mem_map.mp hmem
    exact hrange i (List.mem_filter.mp hi).1
  refine ⟨rfl, ?_, ?_, ?_⟩
  · cases hm : ((evs.filter fun i => derivedType i.policy_id == "approved").map
        InItem.grade).max? with
    | none => simp
    | some m => simpa using (hbounds m hm).1
  · cases hm : ((evs.filter fun i => derivedType i.policy_id == "approved").map
        InItem.grade).max? with
    | none => simp
    | some m => simpa using (hbounds m hm).2
  · intro hnil
    rw [hnil]
    simp

/-- Witness for the amended C3 at the concrete one-approved-item input. -/
theorem C3_witness :
    ((0:Int) ≤ 0 ∧ (0:Int) ≤ 100) ∧
    c3res.scores.approved
        = ((c3evs.filter fun i => derivedType i.policy_id == "approved").map
            InItem.grade).max?.getD 0 ∧
    (0 ≤ c3res.scores.approved ∧ c3res.scores.approved ≤ 100) ∧
    ((c3evs.filter fun i => derivedType i.policy_id == "approved") = [] →
        c3res.scores.approved = 0) := by
  have h := C3_amended_approved_score c3raw c3evs c3res rfl rfl (by decide)
  exact ⟨⟨le_refl 0, by decide⟩, h.1, ⟨h.2.1, h.2.2.1⟩, h.2.2.2⟩

/-! ### C4 -/

def c4evs : List InItem :=
  [mkItem "fda:0" "p" "fda" 150 "r", mkItem "fda:1" "q" "fda" (-5) "r2"]

def c4raw : RawResponse := { evaluations := some c4evs, overall_summary := some "s" }

def c4res : ComplianceResult := structure_compliance_grade_core c4evs "s"

/-- C4 counterexample: a response whose grades are 150 and -5 — numbers
outside [0,100] — is accepted: no error is raised, a ComplianceResult is
returned, and the -5 reaches filtered_evaluations unclamped. -/
theorem C4_counterexample :
    (∃ i ∈ c4evs, ¬(0 ≤ i.grade ∧ i.grade ≤ 100)) ∧
    structure_compliance_grade c4raw = Except.ok c4res ∧
    c4res.filtered_evaluations.map OutItem.grade = [-5] :=
  ⟨⟨mkItem "fda:0" "p" "fda" 150 "r", by decide, by decide⟩, rfl, by decide⟩

/-- C4 (amended): structure_compliance_grade performs no range validation on
grades. Every response whose evaluations key holds a nonempty item list is
accepted whatever its numeric grades, and input grades are never clamped:
each item of filtered_evaluations carries the grade of an input item with
the same policy_id, unchanged (only the computed category scores are
clamped). -/
theorem C4_amended_no_grade_validation (raw : RawResponse) (evs : List InItem)
    (hevs : raw.evaluations = some evs) (hne : evs ≠ []) :
    structure_compliance_grade raw
        = Except.ok (structure_compliance_grade_core evs (raw.overall_summary.getD ""))
      ∧ ∀ o ∈ (structure_compliance_grade_core evs
            (raw.overall_summary.getD "")).filtered_evaluations,
          ∃ i ∈ evs, i.policy_id = o.policy_id ∧ i.grade = o.grade := by
  constructor
  · simp [structure_compliance_grade, hevs, hne]
  · intro o ho
    rw [core_filtered] at ho
    unfold sortByGrade at ho
    rw [List.mem_insertionSort, List.mem_filter] at ho
    obtain ⟨i, hi, rfl⟩ := List.mem_map.mp ho.1
    exact ⟨i, hi, rfl, rfl⟩

/-- Witness for the amended C4 at the concrete out-of-range input,
instantiating the pass-through property at the retained grade -5 item. -/
theorem C4_witness :
    c4raw.evaluations = some c4evs ∧ c4evs ≠ [] ∧
    structure_compliance_grade c4raw
        = Except.ok (structure_compliance_grade_core c4evs "s") ∧
    (∃ i ∈ c4evs,
      i.policy_id = (toOut (mkItem "fda:1" "q" "fda" (-5) "r2")).policy_id ∧
      i.grade = (toOut (mkItem "fda:1" "q" "fda" (-5) "r2")).grade) := by
  have h := C4_amended_no_grade_validation c4raw c4evs rfl (by decide)
  exact ⟨rfl, by decide, h.1, h.2 (toOut (mkItem "fda:1" "q" "fda" (-5) "r2")) (by decide)⟩

/-! ### C5 -/

def c5cells : List (Option String) := [some "a", none, some "b"]

/-- C5 counterexample: with a dropped (missing-text) middle row, the two
retained rows are emitted with ids "fda:0" and "fda:2" — not the contiguous
renumbering "fda:0", "fda:1" that 0-based positions after dropping would
give. -/
theorem C5_counterexample :
    (format_records "fda" c5cells).map PolicyRecord.policy_id = ["fda:0", "fda:2"] ∧
    ¬ ((format_records "fda" c5cells).map PolicyRecord.policy_id
        = (List.range (format_records "fda" c5cells).length).map
            fun j => "fda:" ++ toString j) := by
  constructor <;> decide

/-- Mapping the id column out of the records built from an indexed column
keeps exactly the indices of the rows whose cell is present. -/
lemma filterMap_policy_id (g : String) (l : List (Nat × Option String)) :
    ((l.filterMap fun p => p.2.map fun t =>
        ({ policy_id := g ++ ":" ++ toString p.1, text := t } : PolicyRecord)).map
      PolicyRecord.policy_id)
    = (l.filter fun p => p.2.isSome).map fun p => g ++ ":" ++ toString p.1 := by
  induction l with
  | nil => rfl
  | cons p l ih =>
    cases h : p.2 <;> simp [List.filterMap_cons, h, ih]

/-- The count of present cells is unchanged by enumeration. -/
lemma enumFrom_countP_isSome (cells : List (Option String)) :
    ∀ n, ((List.enumFrom n cells).countP fun p => p.2.isSome)
      = cells.countP Option.isSome := by
  induction cells with
  | nil => intro n; rfl
  | cons c cs ih => intro n; simp [List.enumFrom, List.countP_cons, ih]

/-- C5 (amended): each emitted policy record's id is "<group>:<i>" with i
the 0-based position of its row in the group's table BEFORE the
missing-text rows are dropped, because the policy_id column is assigned
from the index before the notna filter; dropped rows therefore leave gaps
instead of yielding ids 0..k-1. Retained rows keep their original order,
one record per present cell, and the assignment is a pure function of the
input table, hence identical across runs. -/
theorem C5_amended_policy_ids (g : String) (cells : List (Option String)) :
    (format_records g cells).map PolicyRecord.policy_id
        = ((cells.enum.filter fun p => p.2.isSome).map fun p => g ++ ":" ++ toString p.1)
      ∧ (format_records g cells).length = cells.countP Option.isSome := by
  have h1 := filterMap_policy_id g cells.enum
  constructor
  · exact h1
  · have h2 : (format_records g cells).length
        = ((format_records g cells).map PolicyRecord.policy_id).length :=
      (List.length_map _ _).symm
    rw [h2]
    show ((cells.enum.filterMap fun p => p.2.map fun t =>
        ({ policy_id := g ++ ":" ++ toString p.1, text := t } : PolicyRecord)).map
      PolicyRecord.policy_id).length = _
    rw [h1, List.length_map, ← List.countP_eq_length_filter]
    exact enumFrom_countP_isSome cells 0

/-! ### C6 -/

/-- The fresh controller of __init__ (controller.py lines 40-55): no
product, no compliance results, empty chat history. -/
def initController : ComplianceController :=
  { state := { product := none, last_compliance := none, previous_compliance := none }
    chat_history := [] }

/-- C6 counterexample: on a fresh session with no product selected,
chat_bot_message does not fail with any precondition error: it mutates the
chat history and returns the model's reply (so the model call happened —
the result tracks whatever the model answers). -/
theorem C6_counterexample :
    pyFalsyProduct initController.state.product = true ∧
    (chat_bot_message initController "hi" "A").1.chat_history
        = [{ role := "user", content := "hi" }, { role := "assistant", content := "A" }] ∧
    (chat_bot_message initController "hi" "A").2 = "A" ∧
    (chat_bot_message initController "hi" "B").2 = "B" :=
  ⟨rfl, rfl, rfl, rfl⟩

/-- C6 (amended): with no product set (None or ""), run_compliance_check
fails with ValueError("No product selected. Call set_product(product)
first.") before any model call (its outcome does not depend on the model's)
and before any memory mutation (the controller comes back unchanged);
chat_bot_message, however, performs no product check: it proceeds normally,
appending the user message and the model reply to the history and
returning the reply. -/
theorem C6_amended_preconditions (c : ComplianceController)
    (llm llm' : Except String RawResponse) (u r : String)
    (h : pyFalsyProduct c.state.product = true) :
    run_compliance_check c llm
        = (c, Except.error "No product selected. Call set_product(product) first.")
      ∧ run_compliance_check c llm = run_compliance_check c llm'
      ∧ chat_bot_message c u r = (add_message (add_message c "user" u) "assistant" r, r) := by
  refine ⟨?_, ?_, rfl⟩ <;> simp [run_compliance_check, h]

/-- Witness for the amended C6 on the fresh controller. -/
theorem C6_witness :
    pyFalsyProduct initController.state.product = true ∧
    run_compliance_check initController (Except.error "boom")
        = (initController, Except.error "No product selected. Call set_product(product) first.") ∧
    run_compliance_check initController (Except.error "boom")
        = run_compliance_check initController (Except.ok c1raw) ∧
    chat_bot_message initController "hi" "A"
        = (add_message (add_message initController "user" "hi") "assistant" "A", "A") := by
  have h := C6_amended_preconditions initController (Except.error "boom")
    (Except.ok c1raw) "hi" "A" rfl
  exact ⟨rfl, h.1, h.2.1, h.2.2⟩

/-! ### C7 -/

/-- C7: whenever a run_compliance_check call fails — because the model call
raised, or the normalization raised on the model's response — the session's
previous_compliance and last_compliance fields are exactly as they were
before the call, and the call surfaces an error (either the raised one or
the missing-product one), never a partial ComplianceResult. -/
theorem C7_no_mutation_on_failure (c : ComplianceController)
    (llm : Except String RawResponse) (e : String)
    (h : llm = Except.error e ∨
      (∃ raw, llm = Except.ok raw ∧ structure_compliance_grade raw = Except.error e)) :
    (run_compliance_check c llm).1.state.previous_compliance = c.state.previous_compliance
      ∧ (run_compliance_check c llm).1.state.last_compliance = c.state.last_compliance
      ∧ ((run_compliance_check c llm).2 = Except.error e ∨
          (run_compliance_check c llm).2
            = Except.error "No product selected. Call set_product(product) first.") := by
  by_cases hp : pyFalsyProduct c.state.product = true
  · simp [run_compliance_check, hp]
  · rcases h with rfl | ⟨raw, rfl, hraw⟩
    · simp [run_compliance_check, hp]
    · simp [run_compliance_check, hp, hraw]

def c7ctrl : ComplianceController :=
  { state := { product := some "TOTAL30", last_compliance := none, previous_compliance := none }
    chat_history := [] }

/-- Witness for C7: a product is selected and the model call raises. -/
theorem C7_witness :
    (Except.error "boom" : Except String RawResponse) = Except.error "boom" ∧
    (run_compliance_check c7ctrl (Except.error "boom")).1.state.previous_compliance
        = c7ctrl.state.previous_compliance ∧
    (run_compliance_check c7ctrl (Except.error "boom")).1.state.last_compliance
        = c7ctrl.state.last_compliance ∧
    ((run_compliance_check c7ctrl (Except.error "boom")).2 = Except.error "boom" ∨
      (run_compliance_check c7ctrl (Except.error "boom")).2
        = Except.error "No product selected. Call set_product(product) first.") := by
  have h := C7_no_mutation_on_failure c7ctrl (Except.error "boom") "boom" (Or.inl rfl)
  exact ⟨rfl, h.1, h.2.1, h.2.2⟩

/-! ### C8 -/

/-- After any sequence of add_message calls starting from the fresh
controller's empty history, the chat history is the suffix of the appended
messages that drops all but the last 10 (everything while there are at
most 10 of them). -/
lemma fold_add_message_hist (msgs : List ChatMsg) :
    ((msgs.foldl (fun c m => add_message c m.role m.content) initController).chat_history)
      = msgs.drop (msgs.length - 10) := by
  induction msgs using List.reverseRecOn with
  | nil => rfl
  | append_singleton ms m ih =>
    rw [List.foldl_append, List.foldl_cons, List.foldl_nil]
    have hstep : (add_message (ms.foldl (fun c m => add_message c m.role m.content) initController)
        m.role m.content).chat_history
        = (if ((ms.foldl (fun c m => add_message c m.role m.content) initController).chat_history
              ++ [m]).length > 10
            then ((ms.foldl (fun c m => add_message c m.role m.content) initController).chat_history
              ++ [m]).drop 1
            else (ms.foldl (fun c m => add_message c m.role m.content) initController).chat_history
              ++ [m]) := rfl
    rw [hstep, ih]
    rcases Nat.lt_or_ge ms.length 10 with hk | hk
    · have e1 : ms.length - 10 = 0 := by omega
      rw [e1, List.drop_zero]
      rw [if_neg]
      · have e2 : (ms ++ [m]).length - 10 = 0 := by
          simp only [List.length_append, List.length_singleton]
          omega
        rw [e2, List.drop_zero]
      · simp only [List.length_append, List.length_singleton, gt_iff_lt, not_lt]
        omega
    · have hlen : (ms.drop (ms.length - 10)).length = 10 := by
        rw [List.length_drop]
        omega
      rw [if_pos]
      · rw [List.drop_append_of_le_length (by omega : 1 ≤ (ms.drop (ms.length - 10)).length)]
        rw [List.drop_drop]
        have e2 : (ms ++ [m]).length - 10 = ms.length - 9 := by
          simp only [List.length_append, List.length_singleton]
          omega
        rw [e2, List.drop_append_of_le_length (by omega : ms.length - 9 ≤ ms.length)]
        have e3 : ms.length - 10 + 1 = ms.length - 9 := by omega
        rw [e3]
      · simp only [List.length_append, List.length_singleton, hlen, gt_iff_lt]
        omega

/-- C8: after N > 10 add_message calls starting from the empty history of a
fresh controller, the history has length exactly 10 and holds exactly the
most recent 10 appended messages in their original relative order. -/
theorem C8_memory_cap (msgs : List ChatMsg) (h : msgs.length > 10) :
    ((msgs.foldl (fun c m => add_message c m.role m.content) initController).chat_history).length
        = 10
      ∧ (msgs.foldl (fun c m => add_message c m.role m.content) initController).chat_history
        = msgs.drop (msgs.length - 10) := by
  have hh := fold_add_message_hist msgs
  refine ⟨?_, hh⟩
  rw [hh, List.length_drop]
  omega

def c8msgs : List ChatMsg :=
  [{ role := "user", content := "m1" }, { role := "assistant", content := "m2" },
   { role := "user", content := "m3" }, { role := "assistant", content := "m4" },
   { role := "user", content := "m5" }, { role := "assistant", content := "m6" },
   { role := "user", content := "m7" }, { role := "assistant", content := "m8" },
   { role := "user", content := "m9" }, { role := "assistant", content := "m10" },
   { role := "user", content := "m11" }]

/-- Witness for C8 with 11 appended messages. -/
theorem C8_witness :
    c8msgs.length > 10 ∧
    ((c8msgs.foldl (fun c m => add_message c m.role m.content) initController).chat_history).length
        = 10 ∧
    (c8msgs.foldl (fun c m => add_message c m.role m.content) initController).chat_history
        = c8msgs.drop (c8msgs.length - 10) := by
  have h := C8_memory_cap c8msgs (by decide)
  exact ⟨by decide, h.1, h.2⟩

/-! ### C9 -/

/-- Two raw items that agree on everything except the supplied type field. -/
def sameExceptType (a b : InItem) : Prop :=
  a.policy_id = b.policy_id ∧ a.policy = b.policy ∧ a.grade = b.grade ∧ a.reason = b.reason

lemma toOut_congr {a b : InItem} (h : sameExceptType a b) : toOut a = toOut b := by
  obtain ⟨h1, h2, h3, h4⟩ := h
  unfold toOut
  rw [h1, h2, h3, h4]

lemma map_toOut_congr {evs evs' : List InItem}
    (h : List.Forall₂ sameExceptType evs evs') :
    evs.map toOut = evs'.map toOut := by
  induction h with
  | nil => rfl
  | cons h1 _ ih => simp [toOut_congr h1, ih]

lemma core_matches (evs : List InItem) (s : String) :
    (structure_compliance_grade_core evs s).approved_matches
      = ((evs.map toOut).filter fun o => o.type == "approved").filter
          fun o => decide (o.grade ≥ 50) := rfl

/-- C9: group membership and the whole normalized output are derived solely
from each item's policy_id prefix. Two raw responses identical except for
the items' supplied type fields normalize to identical outputs, and every
item of the output carries a type equal to the derived prefix of its
policy_id, whatever type was supplied. -/
theorem C9_type_field_ignored (raw raw' : RawResponse) (evs evs' : List InItem)
    (h1 : raw.evaluations = some evs) (h2 : raw'.evaluations = some evs')
    (hsum : raw.overall_summary = raw'.overall_summary)
    (hty : List.Forall₂ sameExceptType evs evs') :
    structure_compliance_grade raw = structure_compliance_grade raw'
      ∧ ∀ res, structure_compliance_grade raw = Except.ok res →
          ((∀ o ∈ res.filtered_evaluations, o.type = derivedType o.policy_id)
            ∧ ∀ o ∈ res.approved_matches, o.type = derivedType o.policy_id) := by
  have hmap := map_toOut_congr hty
  have hlen : evs.length = evs'.length := List.Forall₂.length_eq hty
  constructor
  · simp only [structure_compliance_grade, h1, h2, hsum]
    by_cases he : evs = []
    · have he' : evs' = [] := by
        rw [he] at hlen
        exact (List.length_eq_zero.mp hlen.symm)
      simp [he, he']
    · have he' : evs' ≠ [] := by
        intro hcon
        rw [hcon] at hlen
        simp at hlen
        exact he hlen
      simp only [List.isEmpty_eq_true, he, he', if_false]
      show Except.ok (structure_compliance_grade_core evs _)
          = Except.ok (structure_compliance_grade_core evs' _)
      unfold structure_compliance_grade_core
      rw [hmap]
  · intro res hres
    obtain ⟨hr, -⟩ := accepted_eq h1 hres
    subst hr
    constructor
    · intro o ho
      rw [core_filtered] at ho
      unfold sortByGrade at ho
      rw [List.mem_insertionSort, List.mem_filter] at ho
      exact type_of_mem_map ho.1
    · intro o ho
      rw [core_matches] at ho
      exact type_of_mem_map (List.mem_filter.mp (List.mem_filter.mp ho).1).1

def c9evs : List InItem :=
  [mkItem "fda:0" "p" "SUPPLIED-A" 50 "r", mkItem "approved:0" "q" "x" 60 "r2"]

def c9evs2 : List InItem :=
  [mkItem "fda:0" "p" "SUPPLIED-B" 50 "r", mkItem "approved:0" "q" "y" 60 "r2"]

def c9raw : RawResponse := { evaluations := some c9evs, overall_summary := some "s" }

def c9raw2 : RawResponse := { evaluations := some c9evs2, overall_summary := some "s" }

def c9res : ComplianceResult := structure_compliance_grade_core c9evs "s"

/-- Witness for C9: two concrete responses differing only in the supplied
type fields give the same output, whose items carry the derived types. -/
theorem C9_witness :
    c9raw.evaluations = some c9evs ∧ c9raw2.evaluations = some c9evs2 ∧
    c9raw.overall_summary = c9raw2.overall_summary ∧
    structure_compliance_grade c9raw = structure_compliance_grade c9raw2 ∧
    (toOut (mkItem "fda:0" "p" "SUPPLIED-A" 50 "r") ∈ c9res.filtered_evaluations →
      (toOut (mkItem "fda:0" "p" "SUPPLIED-A" 50 "r")).type
        = derivedType (toOut (mkItem "fda:0" "p" "SUPPLIED-A" 50 "r")).policy_id) ∧
    (toOut (mkItem "approved:0" "q" "x" 60 "r2") ∈ c9res.approved_matches →
      (toOut (mkItem "approved:0" "q" "x" 60 "r2")).type
        = derivedType (toOut (mkItem "approved:0" "q" "x" 60 "r2")).policy_id) := by
  have h := C9_type_field_ignored c9raw c9raw2 c9evs c9evs2 rfl rfl rfl
    (List.Forall₂.cons ⟨rfl, rfl, rfl, rfl⟩
      (List.Forall₂.cons ⟨rfl, rfl, rfl, rfl⟩ List.Forall₂.nil))
  exact ⟨rfl, rfl, rfl, h.1, fun hm => (h.2 c9res rfl).1 _ hm,
    fun hm => (h.2 c9res rfl).2 _ hm⟩

/-! ### C10 -/

/-- C10: every execution of the CLI entry point that gets past the product
menu raises AttributeError at the product-selection step, before any
compliance check can run: main calls ctrl.set_product(product), and
ComplianceController defines no set_product attribute. The outcome does not
depend on the controller state or on the model. -/
theorem C10_set_product_attribute_error (choice : String)
    (h : (product_map.lookup choice).isSome = true)
    (c : ComplianceController) (llm : Except String RawResponse) :
    main_after_selection choice c llm
      = Except.error { kind := "AttributeError", detail := "set_product" } := by
  obtain ⟨p, hp⟩ := Option.isSome_iff_exists.mp h
  have hattr : getattr_controller "set_product"
      = Except.error { kind := "AttributeError", detail := "set_product" } := rfl
  simp [main_after_selection, hp, hattr]

/-- Witness for C10 at menu choice "1". -/
theorem C10_witness :
    (product_map.lookup "1").isSome = true ∧
    main_after_selection "1" initController (Except.error "irrelevant")
      = Except.error { kind := "AttributeError", detail := "set_product" } :=
  ⟨by decide, C10_set_product_attribute_error "1" (by decide) initController
    (Except.error "irrelevant")⟩
